import Mathlib

/- Shallow embedding of the nested cross-validated decoding engine
   `decode_cv` of `braindelphi/decoding/functions/decoder.py`, together
   with the library components it drives: the global numpy random
   generator, sklearn's `KFold` and `train_test_split` index generation,
   the sklearn scoring functions, and the sample-weighting helper.
   Machine floats are modelled as exact rationals. The per-trial
   prediction buffers distinguish the `None` sentinel, the
   zero-dimensional numpy scalar stored in the single-bin branch, and the
   1-d array stored in the multi-bin branch, because `np.concatenate`
   accepts only the last of the three. -/

namespace BrainDelphi

/-- Mean of a list of rationals, `np.mean` of a 1-d array. An empty list
(never reached by the theorems below) yields `0` via `x / 0 = 0`. -/
def listMean (l : List ℚ) : ℚ := l.sum / (l.length : ℚ)

/-- Column means of a row-major matrix, `X.mean(axis=0)`. -/
def colMeans (X : List (List ℚ)) : List ℚ :=
  (List.range (X.headD []).length).map
    (fun j => (X.map (fun r => r.getD j 0)).sum / (X.length : ℚ))

/-- Subtract an optional row of column means from every row of a matrix:
models `X - mean` with numpy broadcasting. `none` models the scalar `0`
that `decode_cv` substitutes for the mean when input normalisation is
off, so that `X - 0` is the identity. -/
def centerRows : Option (List ℚ) → List (List ℚ) → List (List ℚ)
  | none, X => X
  | some mu, X => X.map (fun r => r.zipWith (fun x m => x - m) mu)

/-- State of the global numpy random generator, modelled abstractly:
`seed` is the value last passed to `np.random.seed` and `draws` counts
the permutations drawn from the generator since then. -/
structure RngState where
  seed : ℕ
  draws : ℕ
deriving DecidableEq, Repr

/-- Models `np.random.seed(s)` (decoder.py:127): the global generator
state becomes a function of `s` alone; whatever state the process held
before the call is discarded. -/
def npRandomSeed (s : ℕ) : RngState := ⟨s, 0⟩

/-- Pseudo-random value mixing the seed and the draw counter; stands in
for the Mersenne-Twister output stream. -/
def rngMix (σ : RngState) : ℕ :=
  (2654435761 * σ.seed + 40503 * σ.draws + 1) % 2147483647

/-- Models drawing a permutation of `0..n-1` from the global generator,
as `KFold(shuffle=True)` and `train_test_split(shuffle=True)` do when
constructed without a `random_state`: the permutation is keyed to the
current global state and the draw advances that state. The concrete
Mersenne-Twister permutation is abstracted as a rotation by a
pseudo-random amount; no theorem below depends on which permutation is
drawn, only that it is a permutation and a function of the state. -/
def npPermutationDraw (σ : RngState) (n : ℕ) : List ℕ × RngState :=
  ((List.range n).rotate (rngMix σ), ⟨σ.seed, σ.draws + 1⟩)

/-- Fold sizes used by sklearn `KFold`: each fold gets `n / K` samples
and the first `n % K` folds get one extra. -/
def foldSizes (K n : ℕ) : List ℕ :=
  (List.range K).map (fun i => n / K + if i < n % K then 1 else 0)

/-- Split a list into consecutive chunks of the given sizes. -/
def chunks {α : Type} : List ℕ → List α → List (List α)
  | [], _ => []
  | sz :: rest, l => l.take sz :: chunks rest (l.drop sz)

/-- Python exceptions relevant to the embedded code. `configurationError`
and `coverageError` are the error classes named by the specification's
taxonomy (§7); they are listed so that statements can compare against
them, but no code path of the repository constructs either. -/
inductive PyError where
  | indexError
  | valueError
  | typeError
  | configurationError
  | coverageError
deriving DecidableEq, Repr

/-- sklearn `KFold(n_splits=K, shuffle=shuffle).split(np.arange(n))`.
Validation follows sklearn: `K ≥ 2` is enforced by the constructor and
`K ≤ n` when the generator is first drawn, both before the first loop
body of `decode_cv` runs, and both raising `ValueError`. The test sets
are consecutive chunks of the (optionally shuffled) index list; the
yielded train/test arrays are read back off a boolean mask over
`np.arange(n)` and are therefore in ascending order. -/
def kfoldSplit (K n : ℕ) (shuffle : Bool) (σ : RngState) :
    Except PyError (List (List ℕ × List ℕ)) × RngState :=
  if K < 2 then (.error .valueError, σ)
  else if n < K then (.error .valueError, σ)
  else
    let idxState := if shuffle then npPermutationDraw σ n else (List.range n, σ)
    let tests := chunks (foldSizes K n) idxState.1
    (.ok (tests.map (fun c =>
        ((List.range n).filter (fun i => decide (i ∉ c)),
         (List.range n).filter (fun i => decide (i ∈ c))))),
     idxState.2)

/-- sklearn `train_test_split(np.arange(n), test_size=p, shuffle=shuffle)`
(decoder.py:132): `n_test = ceil(p * n)`; with shuffling a fresh
permutation is drawn from the global generator and cut at `n_test` (test
indices first); without shuffling the test set is the trailing block of
the dataset. Returns the `(train, test)` pair. -/
def trainTestSplit (n : ℕ) (p : ℚ) (shuffle : Bool) (σ : RngState) :
    (List ℕ × List ℕ) × RngState :=
  let nTest := (Int.ceil (p * (n : ℚ))).toNat
  if shuffle then
    let permState := npPermutationDraw σ n
    ((permState.1.drop nTest, permState.1.take nTest), permState.2)
  else
    (((List.range n).take (n - nTest), (List.range n).drop (n - nTest)), σ)

/-- sklearn `r2_score`. Degenerate conventions as in sklearn: when the
total sum of squares is zero the score is `1` if the residual sum is also
zero and `0` otherwise. -/
def r2_score (yTrue yPred : List ℚ) : ℚ :=
  let m := listMean yTrue
  let ssRes := (List.zipWith (fun t p => (t - p) ^ 2) yTrue yPred).sum
  let ssTot := (yTrue.map (fun t => (t - m) ^ 2)).sum
  if ssTot = 0 then (if ssRes = 0 then 1 else 0) else 1 - ssRes / ssTot

/-- sklearn `accuracy_score`: fraction of positions where the prediction
equals the target. -/
def accuracy_score (yTrue yPred : List ℚ) : ℚ :=
  (List.zipWith (fun t p => if t = p then (1 : ℚ) else 0) yTrue yPred).sum /
    (yTrue.length : ℚ)

/-- sklearn `balanced_accuracy_score`: mean over the classes present in
`yTrue` of the per-class recall. -/
def balanced_accuracy_score (yTrue yPred : List ℚ) : ℚ :=
  let classes := yTrue.dedup
  (classes.map (fun c =>
    (List.zipWith (fun t p => if t = c ∧ p = c then (1 : ℚ) else 0) yTrue yPred).sum /
      (yTrue.count c : ℚ))).sum / (classes.length : ℚ)

/-- The surface of one fitted sklearn estimator instance that `decode_cv`
uses: `predict`, `predict_proba`, `coef_`, `intercept_`, `fit_intercept`. -/
structure FittedModel where
  predict : List (List ℚ) → List ℚ
  predict_proba : List (List ℚ) → List (List ℚ)
  coef : List ℚ
  intercept : ℚ
  fit_intercept : Bool

/-- An sklearn estimator class as `decode_cv` receives it: the engine
instantiates it with the searched hyperparameter
(`estimator(**{**estimator_kwargs, key: alpha})`, the fixed
`estimator_kwargs` being absorbed into the class value here) and fits it
on rows, targets and optional per-sample weights. `isLogistic` models the
class-level comparison `estimator == sklm.LogisticRegression`
(decoder.py:135,281). -/
structure Estimator where
  isLogistic : Bool
  fit : ℚ → List (List ℚ) → List ℚ → Option (List ℚ) → FittedModel

/-- Models `isinstance(estimator, sklm.LogisticRegression)` at
decoder.py:236, 249 and 258. The `estimator` argument there is a class
object (it is instantiated at decoder.py:191 and 224), not an instance,
so this `isinstance` test is False for every estimator passed in. -/
def isinstanceLogisticRegression (_e : Estimator) : Bool := false

/-- Scoring-function selection (decoder.py:135): balanced accuracy for
logistic regression, R² otherwise. -/
def scoring_f (e : Estimator) : List ℚ → List ℚ → ℚ :=
  if e.isLogistic then balanced_accuracy_score else r2_score

/-- Modelled from the spec: the module
`braindelphi.decoding.functions.balancedweightings`, imported by
decoder.py:7 and called at decoder.py:181 and 213, is absent from the
sources. Discrete case per spec §4.1: `weight[i]` is the inverse
frequency of `target[i]`'s class among the `N` samples. The continuous
kernel-density branch is outside every claim and is modelled as unit
weights; the KDE arguments (`use_openturns`, `bin_size_kde`,
`target_distribution`) are accordingly omitted. -/
def balanced_weighting (vec : List ℚ) (continuous : Bool) : List ℚ :=
  if continuous then vec.map (fun _ => 1)
  else vec.map (fun v => (vec.length : ℚ) / (vec.count v : ℚ))

/-- Scan for the first maximal entry: carries the best value, its index
and the index of the next element. -/
def argmaxAux : List ℚ → ℚ → ℕ → ℕ → ℕ
  | [], _, bi, _ => bi
  | v :: rest, bv, bi, i =>
    if bv < v then argmaxAux rest v i (i + 1) else argmaxAux rest bv bi (i + 1)

/-- `np.argmax` over a 1-d array: index of the first maximal entry;
raises `ValueError` on an empty array (decoder.py:223 reaches this state
when the grid's value list is empty). -/
def np_argmax : List ℚ → Except PyError ℕ
  | [] => .error .valueError
  | x :: xs => .ok (argmaxAux xs x 0 1)

/-- Arguments of `decode_cv` (decoder.py:10-30). The list-vs-array input
conversion of decoder.py:106-114 is pre-applied: `ys` holds one target
row per trial (a single-bin scalar target is a one-element row) and `Xs`
one `bins × units` block per trial. The hyperparameter grid is the dict
as an association list in insertion order. The `verbose` flag only
prints and is omitted. -/
structure DecodeArgs where
  ys : List (List ℚ)
  Xs : List (List (List ℚ))
  estimator : Estimator
  balanced_continuous_target : Bool
  balanced_weight : Bool
  hyperparam_grid : List (String × List ℚ)
  test_prop : ℚ
  n_folds : ℕ
  save_binned : Bool
  save_predictions : Bool
  shuffle : Bool
  outer_cv : Bool
  rng_seed : ℕ
  normalize_input : Bool
  normalize_output : Bool

/-- One cell of the full-length per-trial prediction buffers
(decoder.py:122-123): either the `None` sentinel the buffers are
initialised with, or the zero-dimensional numpy scalar `y_pred[i_fold]`
stored by the single-bin branch (decoder.py:248,250), or the 1-d
per-trial prediction array stored by the multi-bin branch
(decoder.py:256,259). The distinction matters because `np.concatenate`
at decoder.py:275 accepts only 1-d entries. -/
inductive PredEntry where
  | unset
  | scalar (v : ℚ)
  | arr (row : List ℚ)
deriving DecidableEq, Repr

/-- Mutable per-run aggregation state of the outer loop of `decode_cv`
(decoder.py:119-123), plus the global generator state it draws from. -/
structure FoldAcc where
  rng : RngState
  scores_train : List ℚ
  scores_test : List ℚ
  idxes_test : List (List ℕ)
  idxes_train : List (List ℕ)
  weights : List (List ℚ)
  intercepts : List (Option ℚ)
  best_params : List (String × ℚ)
  predictions : List PredEntry
  predictions_to_save : List PredEntry

/-- Initial aggregation state: empty score and record lists, and the two
per-trial prediction buffers pre-sized to the trial count and initialised
to the `None` sentinel (decoder.py:119-123). -/
def initAcc (σ : RngState) (nTrials : ℕ) : FoldAcc :=
  ⟨σ, [], [], [], [], [], [], [],
   List.replicate nTrials .unset, List.replicate nTrials .unset⟩

/-- Number of `model_inner.fit` invocations performed by the inner search
of one outer fold (decoder.py:161-193): one per (inner fold, grid value)
iteration pair, regardless of the grid's size. -/
def innerFitCount (nInnerSplits nGridVals : ℕ) : ℕ := nInnerSplits * nGridVals

/-- The inner hyperparameter scores of one outer fold (decoder.py:160-196):
the `r2s` matrix, one row per inner fold and one column per grid value.
Each entry fits a fresh estimator instance on the centred inner-training
rows (with optional balanced weights computed from the de-meaned inner
training target, decoder.py:174,181) and scores its predictions on the
held-out inner rows, the training-target mean being added back to the
predictions (decoder.py:195). -/
def innerScores (a : DecodeArgs) (gridVals : List ℚ)
    (X_train : List (List (List ℚ))) (y_train : List (List ℚ))
    (innerSplits : List (List ℕ × List ℕ)) : List (List ℚ) :=
  innerSplits.map (fun tr_te =>
    let X_train_inner := (tr_te.1.map (fun i => X_train.getD i [])).flatten
    let y_train_inner0 := (tr_te.1.map (fun i => y_train.getD i [])).flatten
    let X_test_inner := (tr_te.2.map (fun i => X_train.getD i [])).flatten
    let y_test_inner := (tr_te.2.map (fun i => y_train.getD i [])).flatten
    let mean_X := if a.normalize_input then some (colMeans X_train_inner) else none
    let Xtr := centerRows mean_X X_train_inner
    let Xte := centerRows mean_X X_test_inner
    let mean_y := if a.normalize_output then listMean y_train_inner0 else 0
    let y_train_inner := y_train_inner0.map (fun y => y - mean_y)
    gridVals.map (fun alpha =>
      let sample_weight := if a.balanced_weight
        then some (balanced_weighting y_train_inner a.balanced_continuous_target)
        else none
      let model_inner := a.estimator.fit alpha Xtr y_train_inner sample_weight
      let pred_test_inner := (model_inner.predict Xte).map (fun p => p + mean_y)
      scoring_f a.estimator y_test_inner pred_test_inner))

/-- Column means of the inner score matrix, `r2s.mean(axis=0)`
(decoder.py:200). -/
def innerScoreMeans (gridLen : ℕ) (r2s : List (List ℚ)) : List ℚ :=
  (List.range gridLen).map
    (fun j => (r2s.map (fun row => row.getD j 0)).sum / (r2s.length : ℚ))

/-- The estimator refit on the full outer-training rows with the selected
hyperparameter (decoder.py:202-226), together with the data it was fit
on: returns (centred X rows, optional column means, de-meaned y rows,
training-target mean, fitted model). -/
def outerRefit (a : DecodeArgs) (best_alpha : ℚ)
    (X_train : List (List (List ℚ))) (y_train : List (List ℚ)) :
    List (List ℚ) × Option (List ℚ) × List ℚ × ℚ × FittedModel :=
  let X_train_array0 := X_train.flatten
  let mean_X_train := if a.normalize_input then some (colMeans X_train_array0) else none
  let X_train_array := centerRows mean_X_train X_train_array0
  let y_train_array0 := y_train.flatten
  let mean_y_train := if a.normalize_output then listMean y_train_array0 else 0
  let y_train_array := y_train_array0.map (fun y => y - mean_y_train)
  let sample_weight := if a.balanced_weight
    then some (balanced_weighting y_train_array a.balanced_continuous_target)
    else none
  (X_train_array, mean_X_train, y_train_array, mean_y_train,
   a.estimator.fit best_alpha X_train_array y_train_array sample_weight)

/-- The per-trial prediction recording loop of one outer fold
(decoder.py:245-262): for each position `i_fold` in the outer test index
array with original trial id `i_global`, writes into both full-length
buffers. In the single-bin case the entry is the numpy SCALAR
`y_pred[i_fold]` picked out of the already computed stacked test
prediction array (basic indexing of a 1-d array yields a 0-d value);
otherwise the model is re-run on the trial's own block, giving a 1-d
array entry. The probability branches are guarded by the `isinstance`
test, which is False (see `isinstanceLogisticRegression`). -/
def recordFold (a : DecodeArgs) (bins_per_trial : ℕ) (model : FittedModel)
    (mean_X_train : Option (List ℚ)) (mean_y_train : ℚ)
    (X_test : List (List (List ℚ))) (y_pred : List ℚ) (y_pred_probs : Option (List ℚ))
    (bufs : List PredEntry × List PredEntry) :
    List ℕ → ℕ →
    List PredEntry × List PredEntry
  | [], _ => bufs
  | i_global :: rest, i_fold =>
    let bufsNext :=
      if bins_per_trial = 1 then
        let v := PredEntry.scalar (y_pred.getD i_fold 0)
        let vSave := if isinstanceLogisticRegression a.estimator
          then PredEntry.scalar ((y_pred_probs.getD []).getD i_fold 0)
          else v
        (bufs.1.set i_global v, bufs.2.set i_global vSave)
      else
        let v := PredEntry.arr
          ((model.predict (centerRows mean_X_train (X_test.getD i_fold []))).map
            (fun p => p + mean_y_train))
        let vSave := if isinstanceLogisticRegression a.estimator
          then PredEntry.arr
            (((model.predict_proba (centerRows mean_X_train (X_test.getD i_fold []))).map
              (fun row => row.getD 0 0)).map (fun p => p + mean_y_train))
          else v
        (bufs.1.set i_global v, bufs.2.set i_global vSave)
    recordFold a bins_per_trial model mean_X_train mean_y_train X_test y_pred
      y_pred_probs bufsNext rest (i_fold + 1)

/-- One iteration of the outer loop of `decode_cv` (decoder.py:143-272). -/
def foldStep (a : DecodeArgs) (acc : FoldAcc) (split : List ℕ × List ℕ) :
    Except PyError FoldAcc :=
  let train_idxs_outer := split.1
  let test_idxs_outer := split.2
  let bins_per_trial := (a.Xs.headD []).length
  let X_train := train_idxs_outer.map (fun i => a.Xs.getD i [])
  let y_train := train_idxs_outer.map (fun i => a.ys.getD i [])
  let X_test := test_idxs_outer.map (fun i => a.Xs.getD i [])
  let y_test := test_idxs_outer.map (fun i => a.ys.getD i [])
  -- key = list(hyperparam_grid.keys())[0]  (decoder.py:159); an empty
  -- dict raises IndexError here, inside the first outer iteration
  match a.hyperparam_grid with
  | [] => .error .indexError
  | (key, gridVals) :: _ =>
    -- inner K-fold over arange(len(X_train)) (decoder.py:156-157,161)
    let kf := kfoldSplit a.n_folds X_train.length a.shuffle acc.rng
    let rng' := kf.2
    match kf.1 with
    | .error e => .error e
    | .ok innerSplits =>
      let r2s := innerScores a gridVals X_train y_train innerSplits
      let r2s_avg := innerScoreMeans gridVals.length r2s
      match np_argmax r2s_avg with
      | .error e => .error e
      | .ok bestIdx =>
        let best_alpha := gridVals.getD bestIdx 0
        let refit := outerRefit a best_alpha X_train y_train
        let X_train_array := refit.1
        let mean_X_train := refit.2.1
        let y_train_array := refit.2.2.1
        let mean_y_train := refit.2.2.2.1
        let model := refit.2.2.2.2
        -- train score (decoder.py:229-231); note that `y_pred_train`
        -- already contains one mean offset and the score adds another
        let y_pred_train := (model.predict X_train_array).map (fun p => p + mean_y_train)
        let score_train := scoring_f a.estimator
          (y_train_array.map (fun y => y + mean_y_train))
          (y_pred_train.map (fun p => p + mean_y_train))
        -- test evaluation (decoder.py:234-241)
        let y_true := y_test.flatten
        let y_pred := (model.predict (centerRows mean_X_train X_test.flatten)).map
          (fun p => p + mean_y_train)
        let y_pred_probs : Option (List ℚ) :=
          if isinstanceLogisticRegression a.estimator = true ∧ bins_per_trial = 1
          then some (((model.predict_proba (centerRows mean_X_train X_test.flatten)).map
            (fun row => row.getD 0 0)).map (fun p => p + mean_y_train))
          else none
        let score_test := scoring_f a.estimator y_true y_pred
        let bufs := recordFold a bins_per_trial model mean_X_train mean_y_train
          X_test y_pred y_pred_probs
          (acc.predictions, acc.predictions_to_save) test_idxs_outer 0
        .ok { rng := rng'
              scores_train := acc.scores_train ++ [score_train]
              scores_test := acc.scores_test ++ [score_test]
              idxes_test := acc.idxes_test ++ [test_idxs_outer]
              idxes_train := acc.idxes_train ++ [train_idxs_outer]
              weights := acc.weights ++ [model.coef]
              intercepts := acc.intercepts ++
                [if model.fit_intercept then some model.intercept else none]
              best_params := acc.best_params ++ [(key, best_alpha)]
              predictions := bufs.1
              predictions_to_save := bufs.2 }

/-- The output dictionary of `decode_cv` (decoder.py:276-294). The
`classes_` entry is omitted: it exists only for estimators exposing that
attribute and no claim concerns it. -/
structure DecodeResult where
  scores_test_full : ℚ
  scores_train : List ℚ
  scores_test : List ℚ
  Rsquared_test_full : ℚ
  acc_test_full : Option ℚ
  balanced_acc_test_full : Option ℚ
  weights : List (List ℚ)
  intercepts : List (Option ℚ)
  target : List (List ℚ)
  predictions_test : Option (List PredEntry)
  regressors : Option (List (List (List ℚ)))
  idxes_test : List (List ℕ)
  idxes_train : List (List ℕ)
  best_params : List (String × ℚ)
  n_folds : ℕ
deriving DecidableEq, Repr

/-- Models `np.concatenate(predictions, axis=0)` over the per-trial
buffer (decoder.py:275): numpy requires every entry to be at least 1-d,
so both an entry still holding the `None` sentinel and the
zero-dimensional scalar stored by the single-bin branch make it raise
`ValueError` (`zero-dimensional arrays cannot be concatenated`) — every
single-bin run of `decode_cv` therefore fails here. Only 1-d per-trial
array entries concatenate, in original trial order. -/
def concatenatePredictions : List PredEntry → Except PyError (List ℚ)
  | [] => .ok []
  | .unset :: _ => .error .valueError
  | .scalar _ :: _ => .error .valueError
  | .arr row :: rest =>
    match concatenatePredictions rest with
    | .error e => .error e
    | .ok tail => .ok (row ++ tail)

/-- The outer fold loop (decoder.py:143): runs `foldStep` over the outer
splits in order; any exception aborts the whole call, as in Python. -/
def foldLoop (a : DecodeArgs) (acc : FoldAcc) :
    List (List ℕ × List ℕ) → Except PyError FoldAcc
  | [] => .ok acc
  | s :: rest =>
    match foldStep a acc s with
    | .error e => .error e
    | .ok acc' => foldLoop a acc' rest

/-- The decoding engine `decode_cv` (decoder.py:10-319), as a function of
the ambient global numpy generator state and the call arguments. On
success it returns the output record together with the global generator
state the call leaves behind. -/
def decode_cv (σ : RngState) (a : DecodeArgs) :
    Except PyError (DecodeResult × RngState) :=
  let n_trials := a.Xs.length
  -- np.random.seed(rng_seed) (decoder.py:127): the ambient state σ is
  -- discarded and the global generator reseeded from the argument
  let σ0 := npRandomSeed a.rng_seed
  let split0 :=
    if a.outer_cv then kfoldSplit a.n_folds n_trials a.shuffle σ0
    else
      let tt := trainTestSplit n_trials a.test_prop a.shuffle σ0
      (.ok [tt.1], tt.2)
  let σ1 := split0.2
  match split0.1 with
  | .error e => .error e
  | .ok outerSplits =>
    match foldLoop a (initAcc σ1 n_trials) outerSplits with
    | .error e => .error e
    | .ok acc =>
      let ys_true_full := a.ys.flatten
      match concatenatePredictions acc.predictions with
      | .error e => .error e
      | .ok ys_pred_full =>
        .ok ({ scores_test_full := scoring_f a.estimator ys_true_full ys_pred_full
               scores_train := acc.scores_train
               scores_test := acc.scores_test
               Rsquared_test_full := r2_score ys_true_full ys_pred_full
               acc_test_full := if a.estimator.isLogistic
                 then some (accuracy_score ys_true_full ys_pred_full) else none
               balanced_acc_test_full := if a.estimator.isLogistic
                 then some (balanced_accuracy_score ys_true_full ys_pred_full) else none
               weights := acc.weights
               intercepts := acc.intercepts
               target := a.ys
               predictions_test := if a.save_predictions
                 then some acc.predictions_to_save else none
               regressors := if a.save_binned then some a.Xs else none
               idxes_test := acc.idxes_test
               idxes_train := acc.idxes_train
               best_params := acc.best_params
               n_folds := a.n_folds }, acc.rng)

/-- A concrete regression estimator used to evaluate the engine on
concrete inputs: fitting ignores the hyperparameter and the weights and
predicts the training-target mean for every row (a valid sklearn-style
estimator surface). -/
def meanEstimator : Estimator where
  isLogistic := false
  fit := fun _alpha _X y _w =>
    { predict := fun rows => rows.map (fun _ => listMean y)
      predict_proba := fun rows => rows.map (fun _ => [0, 0])
      coef := [listMean y]
      intercept := listMean y
      fit_intercept := true }

/-- A concrete classification estimator: `isLogistic` models passing the
class `sklm.LogisticRegression`. Predicted labels threshold the first
feature at `0`; `predict_proba` reports the class-0 probability `1/4`
for every row (so labels and probabilities are distinguishable). -/
def logisticEstimator : Estimator where
  isLogistic := true
  fit := fun _alpha _X _y _w =>
    { predict := fun rows => rows.map (fun r => if 0 < r.getD 0 0 then 1 else 0)
      predict_proba := fun rows => rows.map (fun _ => [1/4, 3/4])
      coef := [1]
      intercept := 0
      fit_intercept := true }

/-- Concrete regression run: four single-bin trials, one unit, two outer
folds, unshuffled, singleton ridge-style grid. -/
def argsA : DecodeArgs where
  ys := [[1], [2], [3], [6]]
  Xs := [[[1]], [[1]], [[1]], [[1]]]
  estimator := meanEstimator
  balanced_continuous_target := false
  balanced_weight := false
  hyperparam_grid := [("alpha", [1/10])]
  test_prop := 1/5
  n_folds := 2
  save_binned := false
  save_predictions := true
  shuffle := false
  outer_cv := true
  rng_seed := 0
  normalize_input := false
  normalize_output := false

/-- Concrete classification run: four single-bin trials with a binary
target, logistic estimator, two outer folds, unshuffled. -/
def argsB : DecodeArgs where
  ys := [[0], [1], [0], [1]]
  Xs := [[[-1]], [[1]], [[-1]], [[1]]]
  estimator := logisticEstimator
  balanced_continuous_target := false
  balanced_weight := false
  hyperparam_grid := [("C", [1])]
  test_prop := 1/5
  n_folds := 2
  save_binned := false
  save_predictions := true
  shuffle := false
  outer_cv := true
  rng_seed := 0
  normalize_input := false
  normalize_output := false

/-- Concrete MULTI-BIN regression run: four trials of two bins each, one
unit, two outer folds, unshuffled, singleton ridge-style grid. Multi-bin
runs store 1-d per-trial arrays in the prediction buffers, so the
post-loop `np.concatenate` succeeds and the engine returns a record
(single-bin runs fail there on the scalar entries). -/
def argsMB : DecodeArgs where
  ys := [[1, 2], [2, 1], [3, 4], [6, 7]]
  Xs := [[[1], [1]], [[1], [1]], [[1], [1]], [[1], [1]]]
  estimator := meanEstimator
  balanced_continuous_target := false
  balanced_weight := false
  hyperparam_grid := [("alpha", [1/10])]
  test_prop := 1/5
  n_folds := 2
  save_binned := false
  save_predictions := true
  shuffle := false
  outer_cv := true
  rng_seed := 0
  normalize_input := false
  normalize_output := false

/-- The output record `decode_cv` produces for `argsMB` (any ambient
generator state): computed by the engine embedding and checked below. -/
def resultMB : DecodeResult where
  scores_test_full := -147/71
  scores_train := [0, 0]
  scores_test := [-49, -49/10]
  Rsquared_test_full := -147/71
  acc_test_full := none
  balanced_acc_test_full := none
  weights := [[5], [3/2]]
  intercepts := [some 5, some (3/2)]
  target := [[1, 2], [2, 1], [3, 4], [6, 7]]
  predictions_test := some [.arr [5, 5], .arr [5, 5],
    .arr [3/2, 3/2], .arr [3/2, 3/2]]
  regressors := none
  idxes_test := [[0, 1], [2, 3]]
  idxes_train := [[2, 3], [0, 1]]
  best_params := [("alpha", 1/10), ("alpha", 1/10)]
  n_folds := 2

/-- `argsA` with an empty hyperparameter grid (`hyperparam_grid = {}`). -/
def argsEmptyGrid : DecodeArgs := { argsA with hyperparam_grid := [] }

/-- The multi-bin run in single-split mode (`outer_cv=False`): only the
test block's trials are ever recorded, so the train trials keep the
`None` sentinel when the post-loop concatenation runs. -/
def argsMBNoOuter : DecodeArgs := { argsMB with outer_cv := false }

/-- `argsA` with input and output centering enabled. -/
def argsNorm : DecodeArgs :=
  { argsA with normalize_input := true, normalize_output := true }

/-- A fitted model predicting `1` for every row, used to feed the
recording loop directly. -/
def overlapModelA : FittedModel := meanEstimator.fit 0 [[1]] [1] none

/-- A fitted model predicting `5` for every row. -/
def overlapModelB : FittedModel := meanEstimator.fit 0 [[1]] [5] none

/-- The prediction buffers after recording a multi-bin (two bins per
trial) fold with test trials `[0, 1, 2]` into fresh length-4 sentinel
buffers. -/
def overlapBufs1 : List PredEntry × List PredEntry :=
  recordFold argsMB 2 overlapModelA none 0
    [[[1], [1]], [[1], [1]], [[1], [1]]] [] none
    (List.replicate 4 .unset, List.replicate 4 .unset) [0, 1, 2] 0

/-- The buffers after recording a second multi-bin fold with test trials
`[2, 3]` on top of `overlapBufs1`: trial 2 appears in both test sets. -/
def overlapBufs2 : List PredEntry × List PredEntry :=
  recordFold argsMB 2 overlapModelB none 0
    [[[1], [1]], [[1], [1]]] [] none overlapBufs1 [2, 3] 0

/-- The discrete target of spec §8's balanced-weighting scenario: classes
`{0, 1}` occurring 90 and 10 times. -/
def vec90_10 : List ℚ := List.replicate 90 0 ++ List.replicate 10 1

lemma foldSizes_length (K n : ℕ) : (foldSizes K n).length = K := by
  simp [foldSizes]

lemma sum_range_const_add_ite (c : ℕ) :
    ∀ K m : ℕ, m ≤ K →
      ((List.range K).map (fun i => c + if i < m then 1 else 0)).sum = K * c + m := by
  intro K
  induction K with
  | zero => intro m hm; interval_cases m; simp
  | succ K ih =>
    intro m hm
    rw [List.range_succ, List.map_append, List.sum_append]
    rcases Nat.lt_or_ge K m with hKm | hKm
    · have hmK : m = K + 1 := by omega
      subst hmK
      have hconst : (List.range K).map (fun i => c + if i < K + 1 then 1 else 0)
          = (List.range K).map (fun _ => c + 1) := by
        apply List.map_congr_left
        intro i hi
        have : i < K + 1 := Nat.lt_succ_of_lt (List.mem_range.mp hi)
        simp [this]
      rw [hconst, List.map_const', List.sum_replicate, smul_eq_mul]
      simp only [List.map_cons, List.map_nil, List.sum_cons, List.sum_nil]
      have : K < K + 1 := Nat.lt_succ_self K
      simp [this]
      ring
    · have hK : ¬ K < m := by omega
      rw [ih m hKm]
      simp [hK]
      ring

lemma foldSizes_sum (K n : ℕ) (hK : K ≠ 0) : (foldSizes K n).sum = n := by
  have hmod : n % K ≤ K := le_of_lt (Nat.mod_lt n (Nat.pos_of_ne_zero hK))
  rw [foldSizes, sum_range_const_add_ite (n / K) K (n % K) hmod]
  exact Nat.div_add_mod n K

lemma chunks_length {α : Type} (szs : List ℕ) (l : List α) :
    (chunks szs l).length = szs.length := by
  induction szs generalizing l with
  | nil => simp [chunks]
  | cons sz rest ih => simp [chunks, ih]

lemma chunks_flatten {α : Type} (szs : List ℕ) (l : List α) :
    (chunks szs l).flatten = l.take szs.sum := by
  induction szs generalizing l with
  | nil => simp [chunks]
  | cons sz rest ih => simp [chunks, ih, List.sum_cons, List.take_add]

lemma chunks_mem_subset {α : Type} {szs : List ℕ} {l : List α} {c : List α}
    (hc : c ∈ chunks szs l) {x : α} (hx : x ∈ c) : x ∈ l := by
  have hfl : x ∈ (chunks szs l).flatten := List.mem_flatten.mpr ⟨c, hc, hx⟩
  rw [chunks_flatten] at hfl
  exact (List.take_sublist _ _).mem hfl

lemma chunks_pairwise {α : Type} (szs : List ℕ) :
    ∀ l : List α, l.Nodup →
      List.Pairwise (fun c d : List α => ∀ x ∈ c, x ∉ d) (chunks szs l) := by
  induction szs with
  | nil => intro l _; simp [chunks]
  | cons sz rest ih =>
    intro l h
    simp only [chunks, List.pairwise_cons]
    constructor
    · intro d hd x hx hxd
      have hxdrop : x ∈ l.drop sz := chunks_mem_subset hd hxd
      have hdisj : List.Disjoint (l.take sz) (l.drop sz) := by
        have h' := h
        rw [← List.take_append_drop sz l] at h'
        exact (List.nodup_append.mp h').2.2
      exact hdisj hx hxdrop
    · exact ih _ ((List.drop_sublist sz l).nodup h)

/-- Core property of the embedded sklearn `KFold` split used by
`decode_cv`: for `2 ≤ K ≤ n` it succeeds and yields exactly `K`
train/test pairs whose test sets cover `0..n-1` with every index in
exactly one test set. -/
lemma kfold_partition {K n : ℕ} (shuffle : Bool) (σ : RngState)
    (h2 : 2 ≤ K) (hKn : K ≤ n) :
    ∃ splits σ2, kfoldSplit K n shuffle σ = (.ok splits, σ2) ∧
      splits.length = K ∧
      (∀ x, (∃ p ∈ splits, x ∈ p.2) ↔ x < n) ∧
      List.Pairwise (fun p q : List ℕ × List ℕ => ∀ x ∈ p.2, x ∉ q.2) splits := by
  have hK2 : ¬ K < 2 := by omega
  have hnK : ¬ n < K := by omega
  have hKne : K ≠ 0 := by omega
  set idxState := if shuffle then npPermutationDraw σ n else (List.range n, σ) with hidx
  have hperm : idxState.1.Perm (List.range n) := by
    cases shuffle
    · simp [hidx]
    · simp [hidx, npPermutationDraw]
      exact List.rotate_perm _ _
  have hlen : idxState.1.length = n := by
    rw [hperm.length_eq, List.length_range]
  have hnodup : idxState.1.Nodup := hperm.nodup_iff.mpr (List.nodup_range n)
  have hflat : (chunks (foldSizes K n) idxState.1).flatten = idxState.1 := by
    rw [chunks_flatten, foldSizes_sum K n hKne, ← hlen, List.take_length]
  refine ⟨(chunks (foldSizes K n) idxState.1).map (fun c =>
      ((List.range n).filter (fun i => decide (i ∉ c)),
       (List.range n).filter (fun i => decide (i ∈ c)))), idxState.2, ?_, ?_, ?_, ?_⟩
  · rw [kfoldSplit, if_neg hK2, if_neg hnK]
  · rw [List.length_map, chunks_length, foldSizes_length]
  · intro x
    constructor
    · rintro ⟨p, hp, hxp⟩
      rcases List.mem_map.mp hp with ⟨c, _hc, rfl⟩
      have := List.mem_filter.mp hxp
      exact List.mem_range.mp this.1
    · intro hxn
      have hxidx : x ∈ idxState.1 := hperm.mem_iff.mpr (List.mem_range.mpr hxn)
      rw [← hflat] at hxidx
      rcases List.mem_flatten.mp hxidx with ⟨c, hc, hxc⟩
      refine ⟨((List.range n).filter (fun i => decide (i ∉ c)),
        (List.range n).filter (fun i => decide (i ∈ c))), List.mem_map_of_mem _ hc, ?_⟩
      exact List.mem_filter.mpr ⟨List.mem_range.mpr hxn, by simpa using hxc⟩
  · rw [List.pairwise_map]
    refine (chunks_pairwise (foldSizes K n) idxState.1 hnodup).imp ?_
    intro c d hcd x hxc hxd
    have hc := List.mem_filter.mp hxc
    have hd := List.mem_filter.mp hxd
    exact hcd x (by simpa using hc.2) (by simpa using hd.2)

/-- C7: for all `N` and `K` with `2 ≤ K ≤ N`, the outer splitter in
K-fold mode produces exactly `K` (train, test) index pairs whose test
sets have union `{0,…,N−1}` and pairwise empty intersection: every trial
index lies in exactly one test set. -/
theorem C7_kfold_test_sets_partition (N K : ℕ) (shuffle : Bool) (σ : RngState)
    (h2 : 2 ≤ K) (hKN : K ≤ N) :
    ∃ splits σ2, kfoldSplit K N shuffle σ = (.ok splits, σ2) ∧
      splits.length = K ∧
      (∀ x, (∃ p ∈ splits, x ∈ p.2) ↔ x < N) ∧
      List.Pairwise (fun p q : List ℕ × List ℕ => ∀ x ∈ p.2, x ∉ q.2) splits :=
  kfold_partition shuffle σ h2 hKN

/-- Witness for C7 at `N = 5`, `K = 2`, shuffled, from a concrete
generator state. -/
theorem C7_kfold_test_sets_partition_witness :
    ∃ splits σ2, kfoldSplit 2 5 true ⟨3, 1⟩ = (.ok splits, σ2) ∧
      splits.length = 2 ∧
      (∀ x, (∃ p ∈ splits, x ∈ p.2) ↔ x < 5) ∧
      List.Pairwise (fun p q : List ℕ × List ℕ => ∀ x ∈ p.2, x ∉ q.2) splits :=
  C7_kfold_test_sets_partition 5 2 true ⟨3, 1⟩ (by decide) (by decide)

/-- Concrete evaluation of the engine on the multi-bin run `argsMB`. -/
lemma decodeMB_eval : decode_cv ⟨42, 7⟩ argsMB = .ok (resultMB, ⟨0, 0⟩) := by
  norm_num [decode_cv, argsMB, resultMB, kfoldSplit, foldSizes, chunks, foldLoop,
    foldStep, innerScores, innerScoreMeans, outerRefit, recordFold, np_argmax,
    scoring_f, r2_score, listMean, colMeans, centerRows, meanEstimator, initAcc,
    npRandomSeed, concatenatePredictions, isinstanceLogisticRegression,
    balanced_weighting, List.getD, List.range_succ, argmaxAux,
    List.replicate, List.set_cons_succ, List.set_cons_zero]

/-- The single-bin logistic run `argsB` never returns an output record:
its prediction buffers hold numpy scalars, on which the post-loop
`np.concatenate` (decoder.py:275) raises a `ValueError`. -/
lemma decodeB_err : decode_cv ⟨42, 7⟩ argsB = .error .valueError := by
  norm_num [decode_cv, argsB, kfoldSplit, foldSizes, chunks, foldLoop,
    foldStep, innerScores, innerScoreMeans, outerRefit, recordFold, np_argmax,
    scoring_f, r2_score, balanced_accuracy_score, accuracy_score, listMean,
    colMeans, centerRows, logisticEstimator, initAcc, npRandomSeed,
    concatenatePredictions, isinstanceLogisticRegression, balanced_weighting,
    List.getD, List.range_succ, argmaxAux, List.replicate, List.set_cons_succ,
    List.set_cons_zero, List.dedup]

/-- The recording loop writes the same value into both buffers (the
probability branch is unreachable because the `isinstance` test is
False), so pairwise-equal buffers stay equal. -/
lemma recordFold_buffers_eq (a : DecodeArgs) (b : ℕ) (model : FittedModel)
    (mX : Option (List ℚ)) (mY : ℚ) (X : List (List (List ℚ))) (yp : List ℚ)
    (ypp : Option (List ℚ)) :
    ∀ (l : List ℕ) (i : ℕ) (bufs : List PredEntry × List PredEntry),
      bufs.1 = bufs.2 →
      (recordFold a b model mX mY X yp ypp bufs l i).1 =
        (recordFold a b model mX mY X yp ypp bufs l i).2 := by
  intro l
  induction l with
  | nil => intro i bufs h; simpa [recordFold] using h
  | cons g rest ih =>
    intro i bufs h
    by_cases hb : b = 1
    · subst hb
      simp only [recordFold, isinstanceLogisticRegression,
        Bool.false_eq_true, reduceIte]
      apply ih
      rw [h]
    · simp only [recordFold, hb, isinstanceLogisticRegression,
        Bool.false_eq_true, reduceIte]
      apply ih
      rw [h]

/-- One outer fold preserves equality of the two prediction buffers. -/
lemma foldStep_buffers_eq {a : DecodeArgs} {acc acc' : FoldAcc}
    {s : List ℕ × List ℕ} (hstep : foldStep a acc s = .ok acc')
    (h : acc.predictions = acc.predictions_to_save) :
    acc'.predictions = acc'.predictions_to_save := by
  simp only [foldStep] at hstep
  split at hstep
  · exact absurd hstep (by simp)
  · split at hstep
    · exact absurd hstep (by simp)
    · split at hstep
      · exact absurd hstep (by simp)
      · rw [Except.ok.injEq] at hstep
        subst hstep
        exact recordFold_buffers_eq _ _ _ _ _ _ _ _ _ _ _ h

/-- The whole outer loop preserves equality of the two buffers. -/
lemma foldLoop_buffers_eq (a : DecodeArgs) :
    ∀ (splits : List (List ℕ × List ℕ)) (acc acc' : FoldAcc),
      foldLoop a acc splits = .ok acc' →
      acc.predictions = acc.predictions_to_save →
      acc'.predictions = acc'.predictions_to_save := by
  intro splits
  induction splits with
  | nil =>
    intro acc acc' hloop h
    simp only [foldLoop, Except.ok.injEq] at hloop
    exact hloop ▸ h
  | cons s rest ih =>
    intro acc acc' hloop h
    simp only [foldLoop] at hloop
    split at hloop
    · exact absurd hloop (by simp)
    · rename_i acc1 hstep
      exact ih acc1 acc' hloop (foldStep_buffers_eq hstep h)

/-- C1: for every K-fold run of `decode_cv` that returns, the pooled
score `scores_test_full` is the scoring function applied to the
concatenation of all true per-trial targets and the concatenation of the
per-trial held-out predictions (the output buffer, in original trial
order); and it is not the average of the per-fold test scores, as the
concrete multi-bin run `argsMB` shows. (Only multi-bin runs return: a
single-bin run stores numpy scalars in the buffer and dies in the
post-loop `np.concatenate`.) -/
theorem C1_pooled_score_is_concatenated_score
    (σ : RngState) (a : DecodeArgs) (r : DecodeResult) (σ2 : RngState)
    (hrun : decode_cv σ a = .ok (r, σ2)) (hsave : a.save_predictions = true) :
    (∃ buf preds, r.predictions_test = some buf ∧
        concatenatePredictions buf = .ok preds ∧
        r.scores_test_full = scoring_f a.estimator a.ys.flatten preds) ∧
    (decode_cv ⟨42, 7⟩ argsMB = .ok (resultMB, ⟨0, 0⟩) ∧
        resultMB.scores_test_full ≠ listMean resultMB.scores_test) := by
  constructor
  · simp only [decode_cv] at hrun
    split at hrun
    · exact absurd hrun (by simp)
    · rename_i outerSplits hsplit0
      split at hrun
      · exact absurd hrun (by simp)
      · rename_i acc hloop
        split at hrun
        · exact absurd hrun (by simp)
        · rename_i preds hconcat
          rw [Except.ok.injEq, Prod.mk.injEq] at hrun
          obtain ⟨hr, _⟩ := hrun
          have hinv : acc.predictions = acc.predictions_to_save :=
            foldLoop_buffers_eq a outerSplits _ acc hloop (by simp [initAcc])
          refine ⟨acc.predictions_to_save, preds, ?_, ?_, ?_⟩
          · rw [← hr]; simp [hsave]
          · rw [← hinv]; exact hconcat
          · rw [← hr]
  · refine ⟨decodeMB_eval, ?_⟩
    norm_num [resultMB, listMean]

/-- Witness for C1 at the concrete multi-bin run `argsMB`. -/
theorem C1_pooled_score_is_concatenated_score_witness :
    (∃ buf preds, resultMB.predictions_test = some buf ∧
        concatenatePredictions buf = .ok preds ∧
        resultMB.scores_test_full = scoring_f argsMB.estimator argsMB.ys.flatten preds) ∧
    (decode_cv ⟨42, 7⟩ argsMB = .ok (resultMB, ⟨0, 0⟩) ∧
        resultMB.scores_test_full ≠ listMean resultMB.scores_test) :=
  C1_pooled_score_is_concatenated_score ⟨42, 7⟩ argsMB resultMB ⟨0, 0⟩
    decodeMB_eval rfl

/-- C3: two runs of the engine with equal seeds, identical inputs and
identical flags produce identical outputs — fold assignments, fitted
coefficients and all scores — whatever ambient generator states the two
runs started from (the call reseeds the global generator from its
argument before drawing anything). -/
theorem C3_determinism (s1 s2 : ℕ) (h : s1 = s2) (σ1 σ2 : RngState)
    (a : DecodeArgs) :
    decode_cv σ1 { a with rng_seed := s1 } = decode_cv σ2 { a with rng_seed := s2 } := by
  subst h
  rfl

/-- Witness for C3: equal seeds, distinct ambient states, the concrete
inputs `argsA`. -/
theorem C3_determinism_witness :
    decode_cv ⟨1, 2⟩ { argsA with rng_seed := 0 } =
      decode_cv ⟨3, 4⟩ { argsA with rng_seed := 0 } :=
  C3_determinism 0 0 rfl ⟨1, 2⟩ ⟨3, 4⟩ argsA

/-- C9, counterexample: the claim says the global random-generator state
is unchanged by a decode invocation. It is not: `decode_cv` executes
`np.random.seed(rng_seed)` (decoder.py:127), so the multi-bin run
`argsMB` — one the program completes — started from ambient state
`⟨42, 7⟩` ends with state `⟨0, 0⟩`, the reseeded state, which differs
from the pre-call state. -/
theorem C9_global_rng_mutated :
    decode_cv ⟨42, 7⟩ argsMB = .ok (resultMB, ⟨0, 0⟩) ∧
      (⟨0, 0⟩ : RngState) ≠ (⟨42, 7⟩ : RngState) :=
  ⟨decodeMB_eval, by decide⟩

/-- C9, amended: the engine derives its randomness only from the seed
argument — its result and final generator state are independent of the
ambient pre-call state — but it achieves this by reseeding the global
generator, thereby mutating the ambient state (shown at a second
concrete pre-call state). -/
theorem C9_seed_only_but_mutates :
    (∀ (σ σ' : RngState) (a : DecodeArgs), decode_cv σ a = decode_cv σ' a) ∧
      (decode_cv ⟨5, 9⟩ argsMB = .ok (resultMB, ⟨0, 0⟩) ∧
        (⟨0, 0⟩ : RngState) ≠ (⟨5, 9⟩ : RngState)) := by
  refine ⟨fun _ _ _ => rfl, ?_, by decide⟩
  have h : decode_cv ⟨5, 9⟩ argsMB = decode_cv ⟨42, 7⟩ argsMB := rfl
  rw [h]
  exact decodeMB_eval

/-- With an empty hyperparameter dict, the first outer-fold body fails at
`key = list(hyperparam_grid.keys())[0]` (decoder.py:159) with IndexError. -/
lemma foldStep_empty_grid (a : DecodeArgs) (acc : FoldAcc) (s : List ℕ × List ℕ)
    (h : a.hyperparam_grid = []) : foldStep a acc s = .error .indexError := by
  simp [foldStep, h]

/-- C5, counterexample: on an empty grid the engine does not raise a
`ConfigurationError` before touching the data; the concrete run fails
with an IndexError raised inside the first outer-fold iteration. -/
theorem C5_empty_grid_gives_IndexError :
    decode_cv ⟨42, 7⟩ argsEmptyGrid = .error .indexError ∧
      (Except.error .indexError : Except PyError (DecodeResult × RngState)) ≠
        .error .configurationError := by
  refine ⟨?_, by simp⟩
  norm_num [decode_cv, argsEmptyGrid, argsA, kfoldSplit, foldSizes, chunks,
    foldLoop, foldStep, initAcc, npRandomSeed, List.range_succ]

/-- C5, amended: for every K-fold invocation with a valid fold count and
an empty hyperparameter grid, the engine fails with an IndexError — not a
`ConfigurationError`, and not before fold splitting: the outer splitter
has already produced its folds when the first loop iteration reads the
grid's first key. -/
theorem C5_empty_grid_fails_inside_first_fold (σ : RngState) (a : DecodeArgs)
    (houter : a.outer_cv = true) (hgrid : a.hyperparam_grid = [])
    (h2 : 2 ≤ a.n_folds) (hn : a.n_folds ≤ a.Xs.length) :
    decode_cv σ a = .error .indexError := by
  obtain ⟨splits, σ2, hk, hlen, -, -⟩ :=
    kfold_partition a.shuffle (npRandomSeed a.rng_seed) h2 hn
  have hsne : splits ≠ [] := by
    intro h0
    rw [h0] at hlen
    simp at hlen
    omega
  obtain ⟨s, rest, rfl⟩ := List.exists_cons_of_ne_nil hsne
  simp only [decode_cv, houter, reduceIte, hk]
  simp [foldLoop, foldStep_empty_grid a _ s hgrid]

/-- Witness for the amended C5 at the concrete empty-grid arguments. -/
theorem C5_empty_grid_fails_inside_first_fold_witness :
    decode_cv ⟨0, 5⟩ argsEmptyGrid = .error .indexError :=
  C5_empty_grid_fails_inside_first_fold ⟨0, 5⟩ argsEmptyGrid rfl rfl
    (by decide) (by decide)

/-- C6, counterexample: with the singleton grid of `argsA`, the inner
search of the first outer fold still runs in full: the `r2s` matrix is
computed with one fitted estimator per (inner fold, grid value) pair —
`innerFitCount 2 1 = 2` fits, not zero as the claimed skip would give. -/
theorem C6_singleton_grid_still_fits_inner_models :
    kfoldSplit 2 2 false ⟨0, 0⟩ = (.ok [([1], [0]), ([0], [1])], ⟨0, 0⟩) ∧
    innerScores argsA [1/10] [[[1]], [[1]]] [[3], [6]]
      [([1], [0]), ([0], [1])] = [[0], [0]] ∧
    innerFitCount 2 1 = 2 ∧ (2 : ℕ) ≠ 0 := by
  refine ⟨?_, ?_, by norm_num [innerFitCount], by decide⟩
  · norm_num [kfoldSplit, foldSizes, chunks, List.range_succ]
  · norm_num [innerScores, argsA, meanEstimator, scoring_f, r2_score, listMean,
      colMeans, centerRows, balanced_weighting, List.getD,
      isinstanceLogisticRegression]

/-- C6, amended: the engine does not skip the inner search for a
singleton grid — it fits the inner estimators anyway — but the selected
hyperparameter is nevertheless always that single grid value, for any
data and any estimator, because `np.argmax` of the one-entry mean-score
vector is 0; the run is identical to searching the singleton grid since
it is that search. -/
theorem C6_singleton_grid_selects_the_value (a : DecodeArgs) (acc : FoldAcc)
    (s : List ℕ × List ℕ) (key : String) (alpha : ℚ)
    (rest : List (String × List ℚ))
    (hgrid : a.hyperparam_grid = (key, [alpha]) :: rest)
    (h2 : 2 ≤ a.n_folds) (hn : a.n_folds ≤ s.1.length) :
    ∃ acc', foldStep a acc s = .ok acc' ∧
      acc'.best_params = acc.best_params ++ [(key, alpha)] := by
  obtain ⟨isplits, σ2, hk, -, -, -⟩ := kfold_partition a.shuffle acc.rng h2 hn
  simp only [foldStep, hgrid]
  rw [List.length_map, hk]
  simp only [innerScoreMeans, List.length_cons, List.length_nil]
  simp only [np_argmax, List.range_succ, List.range_zero, List.nil_append,
    List.map_cons, List.map_nil, argmaxAux]
  exact ⟨_, rfl, by simp⟩

/-- Witness for the amended C6 at the first outer fold of `argsA`. -/
theorem C6_singleton_grid_selects_the_value_witness :
    ∃ acc', foldStep argsA (initAcc ⟨0, 0⟩ 4) ([2, 3], [0, 1]) = .ok acc' ∧
      acc'.best_params = (initAcc ⟨0, 0⟩ 4).best_params ++ [("alpha", 1/10)] :=
  C6_singleton_grid_selects_the_value argsA (initAcc ⟨0, 0⟩ 4) ([2, 3], [0, 1])
    "alpha" (1/10) [] rfl (by decide) (by decide)

/-- Ceiling arithmetic of the held-out size for four trials and
`test_prop = 1/5`. -/
lemma ceil_four_fifths : (Int.ceil ((4:ℚ)/5)).toNat = 1 := by
  have h0 : (Int.ceil ((4:ℚ)/5)) = 1 := by norm_num [Int.ceil_eq_iff]
  rw [h0]
  rfl

/-- The single-split branch on four unshuffled trials with
`test_prop = 1/5`: the test set is the trailing block `[3]`. -/
lemma trainTestSplit_four : trainTestSplit 4 (1/5) false ⟨0, 0⟩ =
    (([0, 1, 2], [3]), ⟨0, 0⟩) := by
  norm_num [trainTestSplit, List.range_succ, ceil_four_fifths]

lemma np_argmax_no_coverage (l : List ℚ) :
    np_argmax l ≠ .error .coverageError := by
  cases l <;> simp [np_argmax]

lemma kfoldSplit_no_coverage (K n : ℕ) (sh : Bool) (σ : RngState) :
    (kfoldSplit K n sh σ).1 ≠ .error .coverageError := by
  unfold kfoldSplit
  split
  · simp
  · split <;> simp

lemma foldStep_no_coverage (a : DecodeArgs) (acc : FoldAcc)
    (s : List ℕ × List ℕ) : foldStep a acc s ≠ .error .coverageError := by
  simp only [foldStep]
  split
  · simp
  · split
    · rename_i e heq
      intro hc
      rw [Except.error.injEq] at hc
      subst hc
      exact kfoldSplit_no_coverage _ _ _ _ heq
    · split
      · rename_i e heq
        intro hc
        rw [Except.error.injEq] at hc
        subst hc
        exact np_argmax_no_coverage _ heq
      · simp

lemma foldLoop_no_coverage (a : DecodeArgs) :
    ∀ (splits : List (List ℕ × List ℕ)) (acc : FoldAcc),
      foldLoop a acc splits ≠ .error .coverageError := by
  intro splits
  induction splits with
  | nil => intro acc; simp [foldLoop]
  | cons s rest ih =>
    intro acc
    simp only [foldLoop]
    split
    · rename_i e heq
      intro hc
      rw [Except.error.injEq] at hc
      subst hc
      exact foldStep_no_coverage a acc s heq
    · exact ih _

lemma concatenatePredictions_no_coverage :
    ∀ buf : List PredEntry,
      concatenatePredictions buf ≠ .error .coverageError := by
  intro buf
  induction buf with
  | nil => simp [concatenatePredictions]
  | cons e rest ih =>
    cases e with
    | unset => simp [concatenatePredictions]
    | scalar v => simp [concatenatePredictions]
    | arr row =>
      simp only [concatenatePredictions]
      split
      · rename_i e heq
        intro hc
        rw [Except.error.injEq] at hc
        subst hc
        exact ih heq
      · simp

/-- C4, counterexample: the recording-plus-pooling stage of the engine
raises no `CoverageError` when an index is covered by more than one test
set: recording two multi-bin folds with test sets `[0,1,2]` and `[2,3]`
(trial 2 twice) fills the buffers with 1-d entries and the pooled
concatenation succeeds, the later fold silently overwriting the earlier
value at trial 2. -/
theorem C4_over_coverage_is_silent :
    concatenatePredictions overlapBufs2.1 = .ok [1, 1, 1, 1, 5, 5, 5, 5] ∧
      (Except.ok [1, 1, 1, 1, 5, 5, 5, 5] : Except PyError (List ℚ)) ≠
        .error .coverageError := by
  refine ⟨?_, by simp⟩
  norm_num [overlapBufs2, overlapBufs1, overlapModelA, overlapModelB,
    recordFold, meanEstimator, listMean, isinstanceLogisticRegression,
    concatenatePredictions, centerRows, List.replicate, List.set_cons_succ,
    List.set_cons_zero, List.getD]

/-- C4, amended: the per-trial buffer is pre-sized to the trial count and
initialised to the `None` sentinel, but there is no post-loop assertion
and no `CoverageError` anywhere: no run of the engine can return one;
an index left unset (reachable in single-split mode, where only the test
block is recorded) surfaces only as the `ValueError` numpy raises when
concatenating the zero-dimensional sentinel, as the concrete multi-bin
`outer_cv=False` run shows (single-bin runs raise the same `ValueError`
for their scalar entries whether or not coverage holds). -/
theorem C4_no_coverage_assertion :
    (∀ (σ : RngState) (n : ℕ),
      (initAcc σ n).predictions = List.replicate n PredEntry.unset) ∧
    (∀ (σ : RngState) (a : DecodeArgs), decode_cv σ a ≠ .error .coverageError) ∧
    decode_cv ⟨42, 7⟩ argsMBNoOuter = .error .valueError := by
  refine ⟨fun _ _ => rfl, ?_, ?_⟩
  · intro σ a
    simp only [decode_cv]
    split
    · rename_i e heq
      intro hc
      rw [Except.error.injEq] at hc
      subst hc
      rcases ha : a.outer_cv with hfalse | htrue
      · rw [ha] at heq
        simp only [Bool.false_eq_true, reduceIte] at heq
        exact absurd heq (by simp)
      · rw [ha] at heq
        simp only [reduceIte] at heq
        exact kfoldSplit_no_coverage _ _ _ _ heq
    · split
      · rename_i e heq
        intro hc
        rw [Except.error.injEq] at hc
        subst hc
        exact foldLoop_no_coverage a _ _ heq
      · split
        · rename_i e heq
          intro hc
          rw [Except.error.injEq] at hc
          subst hc
          exact concatenatePredictions_no_coverage _ heq
        · simp
  · norm_num [decode_cv, argsMBNoOuter, argsMB, npRandomSeed, trainTestSplit_four,
      foldLoop, foldStep, kfoldSplit, foldSizes, chunks, innerScores,
      innerScoreMeans, outerRefit, recordFold, np_argmax, argmaxAux, scoring_f,
      r2_score, listMean, colMeans, centerRows, meanEstimator, initAcc,
      concatenatePredictions, isinstanceLogisticRegression, balanced_weighting,
      List.getD, List.range_succ, List.replicate, List.set_cons_succ,
      List.set_cons_zero]

/-- C8, counterexample: with classes `{0, 1}` occurring 90 and 10 times,
the spec-modelled balanced weighting gives a class-0 sample weight
`10/9` and a class-1 sample weight `10`: the ratio of a class-0 weight
to a class-1 weight is `1 : 9`, not the claimed `9 : 1`. -/
theorem C8_ratio_is_one_to_nine_not_nine_to_one :
    balanced_weighting vec90_10 false =
      List.replicate 90 (10/9) ++ List.replicate 10 10 ∧
    ¬ ((10 : ℚ)/9 = 9 * 10) := by
  refine ⟨?_, by norm_num⟩
  norm_num [balanced_weighting, vec90_10, List.map_append, List.map_replicate,
    List.count_append, List.count_replicate, List.length_append,
    List.length_replicate]

/-- C8, amended: each sample's weight is the inverse frequency of its
class, so with counts 90 and 10 a class-1 sample weighs exactly nine
times a class-0 sample (ratio `1 : 9` between a class-0 and a class-1
sample). -/
theorem C8_inverse_frequency_weights :
    balanced_weighting vec90_10 false =
      List.replicate 90 (10/9) ++ List.replicate 10 10 ∧
    (10 : ℚ) = 9 * (10/9) := by
  refine ⟨?_, by norm_num⟩
  norm_num [balanced_weighting, vec90_10, List.map_append, List.map_replicate,
    List.count_append, List.count_replicate, List.length_append,
    List.length_replicate]

lemma map_sub_map_add (m : ℚ) (l : List ℚ) :
    (l.map (fun y => y - m)).map (fun y => y + m) = l := by
  rw [List.map_map]
  conv_rhs => rw [← List.map_id l]
  apply List.map_congr_left
  intro x _
  simp

lemma map_add_map_add (m : ℚ) (l : List ℚ) :
    (l.map (fun p => p + m)).map (fun p => p + m) = l.map (fun p => p + 2 * m) := by
  rw [List.map_map]
  apply List.map_congr_left
  intro x _
  simp [Function.comp]
  ring

lemma outerRefit_mean {a : DecodeArgs} (hno : a.normalize_output = true)
    (alpha : ℚ) (X : List (List (List ℚ))) (y : List (List ℚ)) :
    (outerRefit a alpha X y).2.2.2.1 = listMean y.flatten := by
  simp [outerRefit, hno]

lemma outerRefit_y (a : DecodeArgs) (alpha : ℚ) (X : List (List (List ℚ)))
    (y : List (List ℚ)) :
    (outerRefit a alpha X y).2.2.1 =
      y.flatten.map (fun v => v - (outerRefit a alpha X y).2.2.2.1) := by
  simp [outerRefit]

/-- C10: with output centering enabled, the per-fold train score compares
the original (mean-restored) training targets against the refit model's
predictions offset by twice the training-target mean, while the test
score and the values recorded into the per-trial prediction buffers use
predictions offset by the training-target mean exactly once. -/
theorem C10_train_score_uses_double_mean_offset
    (a : DecodeArgs) (acc acc' : FoldAcc) (s : List ℕ × List ℕ)
    (hno : a.normalize_output = true)
    (hstep : foldStep a acc s = .ok acc') :
    ∃ (alpha m : ℚ) (model : FittedModel) (mX : Option (List ℚ)),
      m = listMean ((s.1.map (fun i => a.ys.getD i [])).flatten) ∧
      model = (outerRefit a alpha (s.1.map (fun i => a.Xs.getD i []))
        (s.1.map (fun i => a.ys.getD i []))).2.2.2.2 ∧
      mX = (outerRefit a alpha (s.1.map (fun i => a.Xs.getD i []))
        (s.1.map (fun i => a.ys.getD i []))).2.1 ∧
      acc'.scores_train = acc.scores_train ++
        [scoring_f a.estimator ((s.1.map (fun i => a.ys.getD i [])).flatten)
          ((model.predict (outerRefit a alpha (s.1.map (fun i => a.Xs.getD i []))
              (s.1.map (fun i => a.ys.getD i []))).1).map
            (fun p => p + 2 * m))] ∧
      acc'.scores_test = acc.scores_test ++
        [scoring_f a.estimator ((s.2.map (fun i => a.ys.getD i [])).flatten)
          ((model.predict (centerRows mX
              ((s.2.map (fun i => a.Xs.getD i [])).flatten))).map
            (fun p => p + m))] ∧
      (acc'.predictions, acc'.predictions_to_save) =
        recordFold a ((a.Xs.headD []).length) model mX m
          (s.2.map (fun i => a.Xs.getD i []))
          ((model.predict (centerRows mX
              ((s.2.map (fun i => a.Xs.getD i [])).flatten))).map
            (fun p => p + m))
          none (acc.predictions, acc.predictions_to_save) s.2 0 := by
  simp only [foldStep] at hstep
  split at hstep
  · exact absurd hstep (by simp)
  · rename_i kv key gridVals rest hgrid
    split at hstep
    · exact absurd hstep (by simp)
    · rename_i innerSplits hk
      split at hstep
      · exact absurd hstep (by simp)
      · rename_i bestIdx hmax
        rw [Except.ok.injEq] at hstep
        subst hstep
        refine ⟨gridVals.getD bestIdx 0, _, _, _, rfl, rfl, rfl, ?_, ?_, ?_⟩
        · rw [outerRefit_y a _ _ _, map_sub_map_add, map_add_map_add,
            outerRefit_mean hno]
        · rw [outerRefit_mean hno]
        · rw [outerRefit_mean hno]
          simp [isinstanceLogisticRegression]

/-- The outer fold of `argsNorm` on split `([2,3],[0,1])`, evaluated. -/
def accNorm : FoldAcc where
  rng := ⟨0, 0⟩
  scores_train := [-9]
  scores_test := [-36]
  idxes_test := [[0, 1]]
  idxes_train := [[2, 3]]
  weights := [[0]]
  intercepts := [some 0]
  best_params := [("alpha", 1/10)]
  predictions := [.scalar (9/2), .scalar (9/2), .unset, .unset]
  predictions_to_save := [.scalar (9/2), .scalar (9/2), .unset, .unset]

/-- Concrete evaluation of one outer fold with centering enabled. -/
lemma foldStepNorm_eval :
    foldStep argsNorm (initAcc ⟨0, 0⟩ 4) ([2, 3], [0, 1]) = .ok accNorm := by
  norm_num [foldStep, argsNorm, argsA, accNorm, kfoldSplit, foldSizes, chunks,
    innerScores, innerScoreMeans, outerRefit, recordFold, np_argmax, argmaxAux,
    scoring_f, r2_score, listMean, colMeans, centerRows, meanEstimator, initAcc,
    isinstanceLogisticRegression, balanced_weighting, List.getD,
    List.range_succ, List.replicate, List.set_cons_succ, List.set_cons_zero]

/-- Witness for C10 at the concrete centred fold of `argsNorm`. -/
theorem C10_train_score_uses_double_mean_offset_witness :
    ∃ (alpha m : ℚ) (model : FittedModel) (mX : Option (List ℚ)),
      m = listMean ((([2, 3] : List ℕ).map (fun i => argsNorm.ys.getD i [])).flatten) ∧
      model = (outerRefit argsNorm alpha (([2, 3] : List ℕ).map (fun i => argsNorm.Xs.getD i []))
        (([2, 3] : List ℕ).map (fun i => argsNorm.ys.getD i []))).2.2.2.2 ∧
      mX = (outerRefit argsNorm alpha (([2, 3] : List ℕ).map (fun i => argsNorm.Xs.getD i []))
        (([2, 3] : List ℕ).map (fun i => argsNorm.ys.getD i []))).2.1 ∧
      accNorm.scores_train = (initAcc ⟨0, 0⟩ 4).scores_train ++
        [scoring_f argsNorm.estimator ((([2, 3] : List ℕ).map (fun i => argsNorm.ys.getD i [])).flatten)
          ((model.predict (outerRefit argsNorm alpha (([2, 3] : List ℕ).map (fun i => argsNorm.Xs.getD i []))
              (([2, 3] : List ℕ).map (fun i => argsNorm.ys.getD i []))).1).map
            (fun p => p + 2 * m))] ∧
      accNorm.scores_test = (initAcc ⟨0, 0⟩ 4).scores_test ++
        [scoring_f argsNorm.estimator ((([0, 1] : List ℕ).map (fun i => argsNorm.ys.getD i [])).flatten)
          ((model.predict (centerRows mX
              ((([0, 1] : List ℕ).map (fun i => argsNorm.Xs.getD i [])).flatten))).map
            (fun p => p + m))] ∧
      (accNorm.predictions, accNorm.predictions_to_save) =
        recordFold argsNorm ((argsNorm.Xs.headD []).length) model mX m
          (([0, 1] : List ℕ).map (fun i => argsNorm.Xs.getD i []))
          ((model.predict (centerRows mX
              ((([0, 1] : List ℕ).map (fun i => argsNorm.Xs.getD i [])).flatten))).map
            (fun p => p + m))
          none ((initAcc ⟨0, 0⟩ 4).predictions, (initAcc ⟨0, 0⟩ 4).predictions_to_save) [0, 1] 0 :=
  C10_train_score_uses_double_mean_offset argsNorm (initAcc ⟨0, 0⟩ 4) accNorm
    ([2, 3], [0, 1]) rfl foldStepNorm_eval

/-- The first outer fold of the logistic single-bin run `argsB`,
evaluated: the prediction buffers receive the discrete labels as numpy
scalars. -/
def accB : FoldAcc where
  rng := ⟨0, 0⟩
  scores_train := [1]
  scores_test := [1]
  idxes_test := [[0, 1]]
  idxes_train := [[2, 3]]
  weights := [[1]]
  intercepts := [some 0]
  best_params := [("C", 1)]
  predictions := [.scalar 0, .scalar 1, .unset, .unset]
  predictions_to_save := [.scalar 0, .scalar 1, .unset, .unset]

/-- Concrete evaluation of the first outer fold of `argsB`. -/
lemma foldStepB_eval :
    foldStep argsB (initAcc ⟨0, 0⟩ 4) ([2, 3], [0, 1]) = .ok accB := by
  norm_num [foldStep, argsB, accB, kfoldSplit, foldSizes, chunks, innerScores,
    innerScoreMeans, outerRefit, recordFold, np_argmax, argmaxAux, scoring_f,
    balanced_accuracy_score, listMean, colMeans, centerRows, logisticEstimator,
    initAcc, isinstanceLogisticRegression, balanced_weighting, List.getD,
    List.range_succ, List.replicate, List.set_cons_succ, List.set_cons_zero,
    List.dedup]

/-- C2 (claim right, code wrong): for a logistic estimator with a binary
single-bin target, the recording step writes the discrete predicted
labels into both per-trial buffers, not the class-0 probabilities the
code's own comment (decoder.py:243-244) promises: the guard
`isinstance(estimator, sklm.LogisticRegression)` is always False because
`estimator` is a class object. On the first fold of the concrete run
`argsB` the buffers hold the scalar labels `0/1` while `predict_proba`
reports class-0 probability `1/4` for every row; the run then never even
returns `predictions_test`, because the post-loop `np.concatenate`
raises a `ValueError` on the scalar entries (decoder.py:275). -/
theorem C2_predictions_test_stores_labels_not_probabilities :
    foldStep argsB (initAcc ⟨0, 0⟩ 4) ([2, 3], [0, 1]) = .ok accB ∧
    accB.predictions_to_save =
      [.scalar 0, .scalar 1, .unset, .unset] ∧
    (logisticEstimator.fit 1 [[1]] [0, 1] none).predict_proba [[-1]] = [[1/4, 3/4]] ∧
    PredEntry.scalar 0 ≠ PredEntry.scalar (1/4) ∧
    decode_cv ⟨42, 7⟩ argsB = .error .valueError := by
  refine ⟨foldStepB_eval, rfl, ?_, by simp, decodeB_err⟩
  norm_num [logisticEstimator]

end BrainDelphi
